import Mathlib

/-!
Shallow embedding of the batch-conversion worker of `image_converter_pro.py`.

The embedded code is:
 - `ConvertWorker.run` (source lines 81-163): the three-phase job loop
   (warm-up ticks, per-file conversion with error containment, tail padding)
   together with the events it emits on the `status`, `progress` and `done`
   signals, modelled as a single event trace;
 - `ConvertWorker.convert_one` (source lines 165-200): the per-file pixel
   preparation and save call, modelled symbolically as the PIL image
   expression handed to `Image.save` plus the keyword arguments used;
 - `ImageConverterApp.on_cancel_clicked` (source lines 1098-1129) together
   with the `_cancel_locked` flag set by `run` (source line 87): the
   cancellation window.

Python floats are modelled as `ℚ` (all arithmetic in the worker is exact on
small decimals) and Python `int(...)` as truncation toward zero.  The
wall-clock duration measured by `time.monotonic()` around the conversion
loop is a parameter `d` of the trace.  The outcome of `convert_one` for each
input file (success, or one of the three caught exception classes) is
abstracted as a per-file behavior, since it depends on the file system and
image bytes.
-/

namespace ImageConverter

/-- Python `int()` applied to a rational: truncation toward zero. -/
def pyInt (x : ℚ) : ℤ := if 0 ≤ x then ⌊x⌋ else ⌈x⌉

/-- One observable action of the worker thread: an emission on the `status`,
`progress` or `done` signal, or a `time.sleep` call. -/
inductive Event where
  | status (text : String)
  | progress (pct : ℤ)
  | sleep (seconds : ℚ)
  | done (success : Bool) (msg : String)
deriving DecidableEq

/-- Outcome of the `self.convert_one(Path(fpath))` call for one file, as
distinguished by the three `except` arms of the per-file `try` block
(source lines 101-116). -/
inductive FileBehavior where
  | ok
  | unidentifiedImage
  | osFailure (msg : String)
  | otherFailure
deriving DecidableEq

/-- One input file: its display name (`Path(fpath).name`) and the behavior of
its conversion. -/
structure FileSpec where
  name : String
  behavior : FileBehavior
deriving DecidableEq

/-- The loop counter values of `for i in range(8, 0, -1)` (source line 82). -/
def warmupCountdown : List ℕ := [8, 7, 6, 5, 4, 3, 2, 1]

/-- One warm-up tick (source lines 83-85): fixed status text, progress
`int(((8 - i) / 8) * 80)`, then `time.sleep(1)`. -/
def warmupTick (i : ℕ) : List Event :=
  [Event.status ("Wait for a moment..."),
   Event.progress (pyInt ((((8 - i : ℕ) : ℚ) / 8) * 80)),
   Event.sleep 1]

/-- The whole warm-up phase of `run` (source lines 82-85). -/
def warmupEvents : List Event := warmupCountdown.flatMap warmupTick

/-- Status events produced by the `except` arms for one file
(source lines 105-116); a successful conversion emits nothing. -/
def fileErrorStatus (fname : String) : FileBehavior → List Event
  | FileBehavior.ok => []
  | FileBehavior.unidentifiedImage =>
      [Event.status ("Skipped: " ++ fname ++ ". Unidentified or corrupted file format.")]
  | FileBehavior.osFailure msg =>
      [Event.status ("Skipped: " ++ fname ++ ". File read/write error (OSError: " ++ msg ++ ").")]
  | FileBehavior.otherFailure =>
      [Event.status ("Error converting " ++ fname ++ ". See console for details.")]

/-- Conversion-phase percentage for the file at 1-based index `idx` of
`total`: `pct = 80 + int((idx / total) * 19)` clamped to 99
(source lines 118-120). -/
def convPct (idx total : ℕ) : ℤ :=
  let pct := 80 + pyInt ((((idx : ℕ) : ℚ) / ((total : ℕ) : ℚ)) * 19)
  if pct > 99 then 99 else pct

/-- The conversion loop of `run` (source lines 99-123), from 1-based index
`idx` on: per-file error status, then the progress emission and the
`time.sleep(0.01)` pacing call. -/
def conversionEvents (total : ℕ) : ℕ → List FileSpec → List Event
  | _, [] => []
  | idx, f :: rest =>
      (fileErrorStatus f.name f.behavior ++
          [Event.progress (convPct idx total), Event.sleep (1 / 100)]) ++
        conversionEvents total (idx + 1) rest

/-- Value of `final_conversion_pct` after the loop: initialised to 0
(source line 95) and set to the emitted `pct` on every iteration
(source line 122), hence the percentage of the last file when any exists. -/
def finalConvPct (total : ℕ) : ℤ := if total = 0 then 0 else convPct total total

/-- Value of `successful_conversions` after the loop: incremented exactly
when `convert_one` returned normally (source line 103). -/
def countOk (files : List FileSpec) : ℕ :=
  files.countP (fun f => decide (f.behavior = FileBehavior.ok))

/-- The rotating ellipsis frames (source line 135). -/
def dots : List String := ["", ".", "..", "..."]

/-- Tail-padding percentage of step `i` (1-based):
`int(start_pct + pct_increment * i)` clamped to 99 (source lines 144-146). -/
def padPct (startPct : ℤ) (inc : ℚ) (i : ℕ) : ℤ :=
  let np := pyInt ((startPct : ℚ) + inc * (i : ℚ))
  if np > 99 then 99 else np

/-- One tail-padding step (source lines 138-147): sleep, animated status
text using `dots[dot_index]` with `dot_index = (i - 1) % 4`, then the
clamped progress emission. -/
def paddingStepEvents (startPct : ℤ) (stepDelay inc : ℚ) (i : ℕ) : List Event :=
  [Event.sleep stepDelay,
   Event.status ("<b style=\x27color:orange;\x27>Your images are preparing" ++
      dots.getD ((i - 1) % 4) "" ++ "</b>"),
   Event.progress (padPct startPct inc i)]

/-- The tail-padding phase (source lines 125-147): runs only when
`required_delay = MIN_DURATION - conversion_duration` is positive, with
`MIN_DURATION = 10.0` (source line 78); 30 steps, each sleeping
`required_delay / 30`, starting from `final_conversion_pct` floored at 1. -/
def paddingEvents (finalPct : ℤ) (d : ℚ) : List Event :=
  let requiredDelay : ℚ := 10 - d
  if 0 < requiredDelay then
    let startPct : ℤ := if 1 ≤ finalPct then finalPct else 1
    let stepDelay : ℚ := requiredDelay / 30
    let inc : ℚ := (100 - (startPct : ℚ)) / 30
    ((List.range 30).map (fun k => k + 1)).flatMap (paddingStepEvents startPct stepDelay inc)
  else []

/-- The terminal `done` emission of a completed batch (source lines 151-159). -/
def doneEvent (succ total : ℕ) : Event :=
  if succ = total then
    Event.done true ("All conversions completed successfully.")
  else if 0 < succ then
    Event.done true
      ("Conversion finished. Successfully converted " ++ toString succ ++ " of " ++
        toString total ++ " files.")
  else
    Event.done false ("Conversion failed for all files. Check file integrity or permissions.")

/-- The full event trace of one `ConvertWorker.run` (source lines 81-159):
warm-up, then either the `no output format` failure (lines 89-91) or the
conversion loop, tail padding, the unconditional `progress(100)`
(line 149) and the terminal `done` emission.  `d` is the value of
`conversion_duration` measured at line 125; the body of the loop never
raises (all per-file exceptions are caught inside it), so the outer
`except` arm at lines 161-163 is unreachable and contributes nothing. -/
def runTrace (outFormat : Option String) (files : List FileSpec) (d : ℚ) : List Event :=
  warmupEvents ++
    match outFormat with
    | none => [Event.done false ("Error: No output format selected.")]
    | some _ =>
        conversionEvents files.length 1 files ++
          (paddingEvents (finalConvPct files.length) d ++
            ([Event.progress 100] ++ [doneEvent (countOk files) files.length]))

/-- Projection selecting `progress` emissions. -/
def progressOf : Event → Option ℤ
  | Event.progress p => some p
  | _ => none

/-- The sequence of emitted progress percentages of a trace. -/
def progressSeq (tr : List Event) : List ℤ := tr.filterMap progressOf

/-- Projection selecting `status` emissions. -/
def statusOf : Event → Option String
  | Event.status s => some s
  | _ => none

/-- The sequence of emitted status texts of a trace. -/
def statusSeq (tr : List Event) : List String := tr.filterMap statusOf

/-- Projection selecting `time.sleep` durations. -/
def sleepOf : Event → Option ℚ
  | Event.sleep s => some s
  | _ => none

/-- The sequence of sleep durations of a trace. -/
def sleepSeq (tr : List Event) : List ℚ := tr.filterMap sleepOf

/-- Recogniser for the terminal `done` emission. -/
def isDone : Event → Bool
  | Event.done _ _ => true
  | _ => false

/-! ### Model of `ConvertWorker.convert_one` (source lines 165-200)

The PIL image handed to `Image.save` is modelled symbolically as the tree of
PIL calls that built it, so that the theorems can state exactly which
transform the source code applies. -/

/-- PIL color modes occurring in `convert_one`. -/
inductive Mode where
  | RGB
  | RGBA
  | LA
  | L
  | P
  | CMYK
deriving DecidableEq

/-- A source image as seen by `convert_one`: its PIL mode, whether
`"transparency" in img.info` holds, and its pixel dimensions. -/
structure SrcImage where
  mode : Mode
  transparencyInfo : Bool
  width : ℕ
  height : ℕ
deriving DecidableEq

/-- Symbolic PIL image value: the opened source, `img.convert(mode)`,
`Image.new("RGB", size, (255, 255, 255))`, or
`background.paste(pasted, mask=maskSrc.split()[band])` (whose value is the
mutated background). -/
inductive ImageExpr where
  | src (img : SrcImage)
  | convert (e : ImageExpr) (m : Mode)
  | newRGBWhite (width height : ℕ)
  | pasteMask (bg : ImageExpr) (pasted : ImageExpr) (maskSrc : ImageExpr) (band : ℕ)
deriving DecidableEq

/-- The PIL mode of a symbolic image: `convert` yields its target mode,
`Image.new("RGB", ...)` is RGB, and `paste` mutates the background in
place, keeping its mode. -/
def modeOf : ImageExpr → Mode
  | ImageExpr.src img => img.mode
  | ImageExpr.convert _ m => m
  | ImageExpr.newRGBWhite _ _ => Mode.RGB
  | ImageExpr.pasteMask bg _ _ _ => modeOf bg

/-- Whether a PIL mode carries an alpha channel. -/
def hasAlphaMode : Mode → Bool
  | Mode.RGBA => true
  | Mode.LA => true
  | _ => false

/-- Whether building the image involved a white-background `paste`
compositing step anywhere. -/
def usesComposite : ImageExpr → Bool
  | ImageExpr.src _ => false
  | ImageExpr.convert e _ => usesComposite e
  | ImageExpr.newRGBWhite _ _ => false
  | ImageExpr.pasteMask _ _ _ _ => true

/-- An input path, split into directory and stem; `p.with_suffix("." + fmt)`
keeps the directory and stem and replaces the extension. -/
structure SrcPath where
  dir : String
  stem : String
deriving DecidableEq

/-- Output path computation of `convert_one` (source lines 170-173). -/
def outputPath (p : SrcPath) (outFolder : Option String) (fmt : String) : String :=
  match outFolder with
  | some folder => folder ++ "/" ++ p.stem ++ "." ++ fmt
  | none => p.dir ++ "/" ++ p.stem ++ "." ++ fmt

/-- The final `save` call of `convert_one`: target path, the symbolic image
written, the explicit format argument (only the PDF branch passes one), the
`resolution` keyword (only the PDF branch passes one) and the `quality`
keyword (only present when the code puts it into `save_kwargs`). -/
structure SaveOp where
  path : String
  image : ImageExpr
  formatArg : Option String
  resolution : Option ℚ
  quality : Option ℤ
deriving DecidableEq

/-- Model of `convert_one` (source lines 165-200), line by line:
output-path computation (170-173), the JPEG alpha-flattening branch
(177-189), the PDF branch with its early return (191-195), and the
quality keyword (197-198) applied by the final save (200). -/
def convertOne (img : SrcImage) (p : SrcPath) (outFolder : Option String)
    (fmt : String) (quality : ℤ) : SaveOp :=
  let outPath := outputPath p outFolder fmt
  let imgToSave : ImageExpr :=
    if fmt = "jpg" ∨ fmt = "jpeg" then
      if (img.mode = Mode.RGBA ∨ img.mode = Mode.LA) ∨
          (img.mode = Mode.P ∧ img.transparencyInfo) then
        let imgToConvert :=
          if img.mode = Mode.P ∧ img.transparencyInfo then
            ImageExpr.convert (ImageExpr.src img) Mode.RGBA
          else if img.mode ≠ Mode.RGBA then
            ImageExpr.convert (ImageExpr.src img) Mode.RGBA
          else
            ImageExpr.src img
        ImageExpr.pasteMask (ImageExpr.newRGBWhite img.width img.height)
          imgToConvert imgToConvert 3
      else
        ImageExpr.convert (ImageExpr.src img) Mode.RGB
    else
      ImageExpr.src img
  if fmt = "pdf" then
    let pdfImg :=
      if modeOf imgToSave = Mode.RGBA ∨ modeOf imgToSave = Mode.LA ∨
          modeOf imgToSave = Mode.P then
        ImageExpr.convert imgToSave Mode.RGB
      else imgToSave
    { path := outPath, image := pdfImg, formatArg := some ("PDF"),
      resolution := some 100, quality := none }
  else
    { path := outPath, image := imgToSave, formatArg := none, resolution := none,
      quality :=
        if fmt = "webp" ∨ fmt = "jpg" ∨ fmt = "jpeg" then some quality else none }

/-- The alpha-materialised source: what `img_to_convert` evaluates to in
every case of the flattening branch (source lines 179-182). -/
def toRGBA (img : SrcImage) : ImageExpr :=
  if img.mode = Mode.RGBA then ImageExpr.src img
  else ImageExpr.convert (ImageExpr.src img) Mode.RGBA

/-! ### Model of the cancellation window

`ConvertWorker.run` sets `self._cancel_locked = True` immediately after the
warm-up loop (source line 87), before the format check and the conversion
loop; the attribute does not exist before that point, so
`getattr(self.worker, "_cancel_locked", False)` (source line 1099) is
`False` exactly while the warm-up phase is still running. -/

/-- The phase a running job is in when the cancel button is clicked. -/
inductive Phase where
  | warmUp
  | converting
  | tailPadding
deriving DecidableEq

/-- Value of `getattr(self.worker, "_cancel_locked", False)` in each phase
(source lines 87 and 1099). -/
def cancelLocked : Phase → Bool
  | Phase.warmUp => false
  | Phase.converting => true
  | Phase.tailPadding => true

/-- Observable result of a cancel click on a running worker. -/
inductive CancelOutcome where
  | rejectedNotValidNow
  | terminated
deriving DecidableEq

/-- Model of `ImageConverterApp.on_cancel_clicked` (source lines 1098-1129)
for a running worker: when `_cancel_locked` is set the request is rejected
(status "Cancel not valid now", early return, worker untouched); otherwise
`self.worker.terminate()` kills the worker and the UI resets. -/
def onCancelClicked (ph : Phase) : CancelOutcome :=
  if cancelLocked ph then CancelOutcome.rejectedNotValidNow
  else CancelOutcome.terminated

/-- The status text `on_cancel_clicked` displays for each outcome
(source lines 1103 and 1120). -/
def cancelStatusText : CancelOutcome → String
  | CancelOutcome.rejectedNotValidNow => "Cancel not valid now"
  | CancelOutcome.terminated => "Conversion canceled."

/-- Sample RGBA source image used to instantiate theorems with hypotheses. -/
def demoRGBA : SrcImage :=
  { mode := Mode.RGBA, transparencyInfo := false, width := 4, height := 3 }

/-- Sample input path used to instantiate theorems with hypotheses. -/
def demoPath : SrcPath := { dir := "pics", stem := "cat" }

/-- Sample two-file batch: one success, one unreadable file. -/
def demoFiles : List FileSpec :=
  [{ name := "a.png", behavior := FileBehavior.ok },
   { name := "b.png", behavior := FileBehavior.unidentifiedImage }]

/-! ### Helper lemmas about the trace observers -/

theorem progressSeq_append (l₁ l₂ : List Event) :
    progressSeq (l₁ ++ l₂) = progressSeq l₁ ++ progressSeq l₂ :=
  List.filterMap_append l₁ l₂ progressOf

theorem pyInt_of_nonneg {x : ℚ} (hx : 0 ≤ x) : pyInt x = ⌊x⌋ := if_pos hx

theorem progressSeq_fileErrorStatus (n : String) (b : FileBehavior) :
    progressSeq (fileErrorStatus n b) = [] := by
  cases b <;> rfl

theorem filter_isDone_fileErrorStatus (n : String) (b : FileBehavior) :
    (fileErrorStatus n b).filter isDone = [] := by
  cases b <;> rfl

theorem progressSeq_conversionEvents (total : ℕ) (fs : List FileSpec) (idx : ℕ) :
    progressSeq (conversionEvents total idx fs) =
      (List.range fs.length).map (fun k => convPct (idx + k) total) := by
  induction fs generalizing idx with
  | nil => rfl
  | cons f rest ih =>
      rw [conversionEvents, progressSeq_append, progressSeq_append,
        progressSeq_fileErrorStatus, List.nil_append, ih]
      rw [show progressSeq [Event.progress (convPct idx total), Event.sleep (1 / 100)] =
        [convPct idx total] from rfl]
      rw [List.length_cons, List.range_succ_eq_map, List.map_cons, List.map_map,
        List.singleton_append, Nat.add_zero]
      refine congrArg₂ _ rfl ?_
      refine List.map_congr_left fun k _ => ?_
      have harg : idx + 1 + k = idx + (k + 1) := by omega
      simp [Function.comp, harg]

theorem filter_isDone_conversionEvents (total : ℕ) (fs : List FileSpec) (idx : ℕ) :
    (conversionEvents total idx fs).filter isDone = [] := by
  induction fs generalizing idx with
  | nil => rfl
  | cons f rest ih =>
      simp [conversionEvents, List.filter_append, filter_isDone_fileErrorStatus, ih, isDone]

theorem flatMap_singleton_eq_map (l : List α) (f : α → β) :
    (l.flatMap fun a => [f a]) = l.map f := by
  induction l with
  | nil => rfl
  | cons a t ih => simp [ih]

theorem progressSeq_paddingStepEvents (s : ℤ) (sd inc : ℚ) (i : ℕ) :
    progressSeq (paddingStepEvents s sd inc i) = [padPct s inc i] := rfl

theorem progressSeq_paddingEvents (fp : ℤ) (d : ℚ) :
    progressSeq (paddingEvents fp d) =
      if 0 < (10 : ℚ) - d then
        (List.range 30).map (fun k =>
          padPct (if 1 ≤ fp then fp else 1)
            ((100 - ((if 1 ≤ fp then fp else 1 : ℤ) : ℚ)) / 30) (k + 1))
      else [] := by
  rw [paddingEvents]
  split
  · rw [progressSeq, List.filterMap_flatMap]
    rw [show (fun a => List.filterMap progressOf
          (paddingStepEvents (if 1 ≤ fp then fp else 1) ((10 - d) / 30)
            ((100 - ((if 1 ≤ fp then fp else 1 : ℤ) : ℚ)) / 30) a)) =
        (fun a => [padPct (if 1 ≤ fp then fp else 1)
            ((100 - ((if 1 ≤ fp then fp else 1 : ℤ) : ℚ)) / 30) a]) from rfl]
    rw [flatMap_singleton_eq_map, List.map_map]
    rfl
  · rfl

theorem filter_isDone_paddingEvents (fp : ℤ) (d : ℚ) :
    (paddingEvents fp d).filter isDone = [] := by
  rw [paddingEvents]
  split
  · rw [List.filter_flatMap]
    simp [paddingStepEvents, isDone]
  · rfl

theorem isDone_doneEvent (s t : ℕ) : isDone (doneEvent s t) = true := by
  rw [doneEvent]
  split
  · rfl
  · split <;> rfl

theorem progressOf_doneEvent (s t : ℕ) : progressOf (doneEvent s t) = none := by
  rw [doneEvent]
  split
  · rfl
  · split <;> rfl

theorem filter_isDone_warmup : warmupEvents.filter isDone = [] := by decide

theorem progressSeq_runTrace_some (fmt : String) (files : List FileSpec) (d : ℚ) :
    progressSeq (runTrace (some fmt) files d) =
      progressSeq warmupEvents ++
        ((List.range files.length).map (fun k => convPct (1 + k) files.length) ++
          (progressSeq (paddingEvents (finalConvPct files.length) d) ++ [100])) := by
  simp only [runTrace, progressSeq_append, progressSeq_conversionEvents]
  refine congrArg₂ _ rfl (congrArg₂ _ rfl (congrArg₂ _ rfl ?_))
  rw [show progressSeq [Event.progress 100] = [100] from rfl]
  rw [show progressSeq [doneEvent (countOk files) files.length] =
    List.filterMap progressOf [doneEvent (countOk files) files.length] from rfl]
  rw [List.filterMap_cons, progressOf_doneEvent]
  rfl

/-! ### Bounds and monotonicity of the conversion-phase percentage -/

theorem convPct_le_99 (idx total : ℕ) : convPct idx total ≤ 99 := by
  simp only [convPct]
  split <;> omega

theorem convPct_ge_80 (idx total : ℕ) : 80 ≤ convPct idx total := by
  have h0 : (0 : ℚ) ≤ ((idx : ℚ) / (total : ℚ)) * 19 := by positivity
  have h1 : 0 ≤ pyInt (((idx : ℚ) / (total : ℚ)) * 19) := by
    rw [pyInt_of_nonneg h0]
    exact Int.floor_nonneg.mpr h0
  simp only [convPct]
  split <;> omega

theorem convPct_mono (total : ℕ) {i j : ℕ} (hij : i ≤ j) :
    convPct i total ≤ convPct j total := by
  have hq : ((i : ℚ) / (total : ℚ)) * 19 ≤ ((j : ℚ) / (total : ℚ)) * 19 := by
    rcases Nat.eq_zero_or_pos total with h0 | hpos
    · subst h0
      simp
    · have ht : (0 : ℚ) < (total : ℚ) := by exact_mod_cast hpos
      have hij' : (i : ℚ) ≤ (j : ℚ) := by exact_mod_cast hij
      gcongr
  have h1 : pyInt (((i : ℚ) / (total : ℚ)) * 19) ≤ pyInt (((j : ℚ) / (total : ℚ)) * 19) := by
    rw [pyInt_of_nonneg (by positivity), pyInt_of_nonneg (by positivity)]
    exact Int.floor_le_floor hq
  simp only [convPct]
  split <;> split <;> omega

theorem convPct_self {n : ℕ} (h : n ≠ 0) : convPct n n = 99 := by
  have hc : ((n : ℚ)) ≠ 0 := Nat.cast_ne_zero.mpr h
  have h19 : ((n : ℚ) / (n : ℚ)) * 19 = 19 := by rw [div_self hc, one_mul]
  simp only [convPct, h19]
  rw [pyInt_of_nonneg (by norm_num)]
  have hfl : ⌊(19 : ℚ)⌋ = 19 := by norm_num
  rw [hfl]
  norm_num

theorem finalConvPct_of_ne_zero {n : ℕ} (h : n ≠ 0) : finalConvPct n = 99 := by
  rw [finalConvPct, if_neg h, convPct_self h]

theorem padPct_99 {i : ℕ} (h2 : i ≤ 30) :
    padPct 99 ((100 - ((99 : ℤ) : ℚ)) / 30) i = 99 := by
  have hinc : ((100 : ℚ) - ((99 : ℤ) : ℚ)) / 30 = 1 / 30 := by norm_num
  have hx0 : (0 : ℚ) ≤ ((99 : ℤ) : ℚ) + 1 / 30 * (i : ℚ) := by positivity
  rcases eq_or_lt_of_le h2 with h30 | h30
  · have hx : ((99 : ℤ) : ℚ) + 1 / 30 * (i : ℚ) = 100 := by
      subst h30
      norm_num
    simp only [padPct, hinc, hx]
    rw [pyInt_of_nonneg (by norm_num)]
    norm_num
  · have hfl : pyInt (((99 : ℤ) : ℚ) + 1 / 30 * (i : ℚ)) = 99 := by
      rw [pyInt_of_nonneg hx0]
      refine Int.floor_eq_iff.mpr ⟨le_add_of_nonneg_right (by positivity), ?_⟩
      have hi : (i : ℚ) ≤ 29 := by exact_mod_cast Nat.lt_succ_iff.mp h30
      push_cast
      nlinarith
    simp only [padPct, hinc, hfl]
    norm_num

theorem progressSeq_paddingEvents_99 (d : ℚ) :
    progressSeq (paddingEvents 99 d) =
      if 0 < (10 : ℚ) - d then List.replicate 30 (99 : ℤ) else [] := by
  rw [progressSeq_paddingEvents]
  split
  · rw [show (if (1 : ℤ) ≤ 99 then (99 : ℤ) else 1) = 99 from rfl]
    refine (List.eq_replicate_iff.mpr ⟨by simp, ?_⟩)
    intro b hb
    simp only [List.mem_map, List.mem_range] at hb
    obtain ⟨k, hk, rfl⟩ := hb
    exact padPct_99 (by omega)
  · rfl

theorem warmup_progress_eval :
    progressSeq warmupEvents = [0, 10, 20, 30, 40, 50, 60, 70] := by
  rw [show progressSeq warmupEvents =
    [pyInt (((8 - 8 : ℕ) : ℚ) / 8 * 80), pyInt (((8 - 7 : ℕ) : ℚ) / 8 * 80),
     pyInt (((8 - 6 : ℕ) : ℚ) / 8 * 80), pyInt (((8 - 5 : ℕ) : ℚ) / 8 * 80),
     pyInt (((8 - 4 : ℕ) : ℚ) / 8 * 80), pyInt (((8 - 3 : ℕ) : ℚ) / 8 * 80),
     pyInt (((8 - 2 : ℕ) : ℚ) / 8 * 80), pyInt (((8 - 1 : ℕ) : ℚ) / 8 * 80)] from rfl]
  norm_num [pyInt]

theorem warmup_status_eval :
    statusSeq warmupEvents = List.replicate 8 ("Wait for a moment...") := by rfl

theorem warmup_sleep_eval : sleepSeq warmupEvents = List.replicate 8 (1 : ℚ) := by rfl

theorem statusSeq_append (l₁ l₂ : List Event) :
    statusSeq (l₁ ++ l₂) = statusSeq l₁ ++ statusSeq l₂ :=
  List.filterMap_append l₁ l₂ statusOf

/-! ### Claim theorems -/

/-- C1, counterexample: the claim says a cancellation request during `WarmUp`
is rejected while one during `Converting` or `TailPadding` terminates the
job.  The code does the exact opposite on every phase: during warm-up
`_cancel_locked` is still unset, so `on_cancel_clicked` falls through to
`self.worker.terminate()`; after warm-up `_cancel_locked` is `True`, so the
handler shows "Cancel not valid now" and returns without touching the
worker. -/
theorem c1_cancel_window_counterexample :
    onCancelClicked Phase.warmUp ≠ CancelOutcome.rejectedNotValidNow ∧
    onCancelClicked Phase.converting ≠ CancelOutcome.terminated ∧
    onCancelClicked Phase.tailPadding ≠ CancelOutcome.terminated := by
  refine ⟨?_, ?_, ?_⟩ <;> decide

/-- C1 (amended): the cancellation window is inverted with respect to the
claim — a cancellation request arriving during the `WarmUp` phase terminates
the worker immediately, while a request arriving during `Converting` or
`TailPadding` is rejected with the distinct "Cancel not valid now"
acknowledgment and the job continues unaffected. -/
theorem c1_cancel_window_inverted (ph : Phase) :
    (ph = Phase.warmUp → onCancelClicked ph = CancelOutcome.terminated) ∧
    (ph ≠ Phase.warmUp →
      onCancelClicked ph = CancelOutcome.rejectedNotValidNow ∧
      cancelStatusText (onCancelClicked ph) = ("Cancel not valid now")) := by
  cases ph <;> exact ⟨by decide, by decide⟩

/-- Witness for `c1_cancel_window_inverted` at the `Converting` phase. -/
theorem c1_cancel_window_inverted_witness :
    Phase.converting ≠ Phase.warmUp ∧
    (onCancelClicked Phase.converting = CancelOutcome.rejectedNotValidNow ∧
      cancelStatusText (onCancelClicked Phase.converting) = ("Cancel not valid now")) :=
  ⟨by decide, (c1_cancel_window_inverted Phase.converting).2 (by decide)⟩

/-- C5: a job started with `output_format` unset completes the warm-up phase,
then emits exactly `done(False, "Error: No output format selected.")` and
terminates: the whole trace is the warm-up trace followed by that single
completion event, so no conversion-phase progress or status event occurs and
no file is processed. -/
theorem c5_no_output_format (files : List FileSpec) (d : ℚ) :
    runTrace none files d =
        warmupEvents ++ [Event.done false ("Error: No output format selected.")] ∧
    progressSeq (runTrace none files d) = progressSeq warmupEvents ∧
    statusSeq (runTrace none files d) = statusSeq warmupEvents ∧
    (runTrace none files d).filter isDone =
        [Event.done false ("Error: No output format selected.")] := by
  have htr : runTrace none files d =
      warmupEvents ++ [Event.done false ("Error: No output format selected.")] := rfl
  refine ⟨htr, ?_, ?_, ?_⟩
  · rw [htr, progressSeq_append,
      show progressSeq [Event.done false ("Error: No output format selected.")] = [] from rfl,
      List.append_nil]
  · rw [htr, statusSeq_append,
      show statusSeq [Event.done false ("Error: No output format selected.")] = [] from rfl,
      List.append_nil]
  · rw [htr, List.filter_append, filter_isDone_warmup, List.nil_append]
    rfl

/-- C8, counterexample: the warm-up progress percentages are
`int(((8 - i) / 8) * 80)` for `i = 8..1`, that is 0, 10, ..., 70 — the last
warm-up tick emits 70, and 80 is never emitted during warm-up, so the
percentages do not range up to 80% as claimed. -/
theorem c8_warmup_pct_counterexample :
    (progressSeq warmupEvents).getLast? = some 70 ∧
    ((80 : ℤ) ∈ progressSeq warmupEvents → False) := by
  rw [warmup_progress_eval]
  exact ⟨rfl, by decide⟩

/-- C8 (amended): the warm-up phase consists of exactly 8 ticks one
time-unit apart, each emitting the same fixed waiting status text; the
tick percentages follow the linear ramp `floor((k / 8) * 80) = 10 * k` for
`k = 0..7`, rising from 0% to 70% (80% is first reached by the conversion
phase, not during warm-up). -/
theorem c8_warmup_phase_shape :
    warmupCountdown.length = 8 ∧
    statusSeq warmupEvents = List.replicate 8 ("Wait for a moment...") ∧
    sleepSeq warmupEvents = List.replicate 8 (1 : ℚ) ∧
    progressSeq warmupEvents = (List.range 8).map (fun k => (10 * (k : ℤ))) ∧
    (progressSeq warmupEvents).head? = some 0 ∧
    (progressSeq warmupEvents).getLast? = some 70 := by
  refine ⟨rfl, warmup_status_eval, warmup_sleep_eval, ?_, ?_, ?_⟩ <;>
    rw [warmup_progress_eval] <;> decide

/-- C10: a worker started with an empty file list and an output format
selected still reaches the normal terminal completion: it emits a final
progress event of 100 and exactly one completion event, namely
`done(True, "All conversions completed successfully.")` — full success
despite converting no files. -/
theorem c10_empty_batch_success (fmt : String) (d : ℚ) :
    (progressSeq (runTrace (some fmt) [] d)).getLast? = some 100 ∧
    (runTrace (some fmt) [] d).getLast? =
        some (Event.done true ("All conversions completed successfully.")) ∧
    (runTrace (some fmt) [] d).filter isDone =
        [Event.done true ("All conversions completed successfully.")] := by
  refine ⟨?_, ?_, ?_⟩
  · rw [progressSeq_runTrace_some]
    simp
  · simp [runTrace, doneEvent, countOk]
  · simp [runTrace, List.filter_append, filter_isDone_warmup,
      filter_isDone_conversionEvents, filter_isDone_paddingEvents, isDone,
      doneEvent, countOk]

/-- C6: converting to JPEG, a source with an alpha channel (mode RGBA or
LA) or palette-indexed with a transparency entry is written as the source
(materialised in RGBA) composited onto an opaque white RGB background of
the source's dimensions, using band 3 — the alpha channel — of that same
RGBA image as the compositing mask; any other source is converted directly
to RGB; in every case the image written has no alpha channel. -/
theorem c6_jpeg_alpha_flattening (img : SrcImage) (p : SrcPath)
    (outFolder : Option String) (q : ℤ) :
    (((img.mode = Mode.RGBA ∨ img.mode = Mode.LA) ∨
        (img.mode = Mode.P ∧ img.transparencyInfo)) →
      (convertOne img p outFolder ("jpg") q).image =
        ImageExpr.pasteMask (ImageExpr.newRGBWhite img.width img.height)
          (toRGBA img) (toRGBA img) 3) ∧
    ((¬ ((img.mode = Mode.RGBA ∨ img.mode = Mode.LA) ∨
        (img.mode = Mode.P ∧ img.transparencyInfo))) →
      (convertOne img p outFolder ("jpg") q).image =
        ImageExpr.convert (ImageExpr.src img) Mode.RGB) ∧
    hasAlphaMode (modeOf (convertOne img p outFolder ("jpg") q).image) = false := by
  obtain ⟨m, t, w, h⟩ := img
  cases m <;> cases t <;>
    exact ⟨fun hc => by first | rfl | exact absurd hc (by simp),
           fun hc => by first | rfl | exact absurd hc (by simp),
           rfl⟩

/-- Witness for `c6_jpeg_alpha_flattening` on an RGBA source. -/
theorem c6_jpeg_alpha_flattening_witness :
    ((demoRGBA.mode = Mode.RGBA ∨ demoRGBA.mode = Mode.LA) ∨
      (demoRGBA.mode = Mode.P ∧ demoRGBA.transparencyInfo)) ∧
    (convertOne demoRGBA demoPath none ("jpg") 95).image =
      ImageExpr.pasteMask (ImageExpr.newRGBWhite demoRGBA.width demoRGBA.height)
        (toRGBA demoRGBA) (toRGBA demoRGBA) 3 :=
  ⟨by decide, (c6_jpeg_alpha_flattening demoRGBA demoPath none 95).1 (by decide)⟩

/-- C7: converting to PDF, a source in an alpha-bearing or palette mode
(RGBA, LA or P) is written as `img.convert("RGB")` — its transparency is
discarded with no white-background compositing step anywhere in the saved
image — the save call carries `resolution = 100.0` and the explicit "PDF"
format, and the quality parameter is not passed. -/
theorem c7_pdf_branch (img : SrcImage) (p : SrcPath)
    (outFolder : Option String) (q : ℤ) :
    ((img.mode = Mode.RGBA ∨ img.mode = Mode.LA ∨ img.mode = Mode.P) →
      (convertOne img p outFolder ("pdf") q).image =
        ImageExpr.convert (ImageExpr.src img) Mode.RGB) ∧
    (convertOne img p outFolder ("pdf") q).resolution = some 100 ∧
    (convertOne img p outFolder ("pdf") q).quality = none ∧
    (convertOne img p outFolder ("pdf") q).formatArg = some ("PDF") ∧
    usesComposite ((convertOne img p outFolder ("pdf") q).image) = false := by
  obtain ⟨m, t, w, h⟩ := img
  cases m <;>
    exact ⟨fun hc => by first | rfl | exact absurd hc (by simp), rfl, rfl, rfl, rfl⟩

/-- Witness for `c7_pdf_branch` on an RGBA source. -/
theorem c7_pdf_branch_witness :
    (demoRGBA.mode = Mode.RGBA ∨ demoRGBA.mode = Mode.LA ∨ demoRGBA.mode = Mode.P) ∧
    (convertOne demoRGBA demoPath none ("pdf") 95).image =
      ImageExpr.convert (ImageExpr.src demoRGBA) Mode.RGB :=
  ⟨by decide, (c7_pdf_branch demoRGBA demoPath none 95).1 (by decide)⟩

/-- C9: the save call carries the quality keyword exactly when the target
format is JPEG ("jpg"/"jpeg") or WEBP, and for the targets PNG, BMP, TIFF,
GIF, ICO and PDF the entire save call — hence the output produced — is
identical for any two quality values. -/
theorem c9_quality_only_jpeg_webp (img : SrcImage) (p : SrcPath)
    (outFolder : Option String) (fmt : String) (q q1 q2 : ℤ) :
    ((convertOne img p outFolder fmt q).quality = some q ↔
      (fmt = "jpg" ∨ fmt = "jpeg" ∨ fmt = "webp")) ∧
    (fmt ∈ [("png" : String), "bmp", "tiff", "gif", "ico", "pdf"] →
      convertOne img p outFolder fmt q1 = convertOne img p outFolder fmt q2) := by
  constructor
  · by_cases hpdf : fmt = "pdf"
    · subst hpdf
      refine ⟨fun hx => ?_, fun hx => absurd hx (by decide)⟩
      simp +decide [convertOne] at hx
    · by_cases hq : fmt = "webp" ∨ fmt = "jpg" ∨ fmt = "jpeg"
      · have hval : (convertOne img p outFolder fmt q).quality = some q := by
          simp [convertOne, hpdf, hq]
        rw [hval]
        simp only [Option.some.injEq, true_iff, iff_true]
        tauto
      · have hval : (convertOne img p outFolder fmt q).quality = none := by
          simp [convertOne, hpdf, hq]
        rw [hval]
        constructor
        · intro hx
          exact absurd hx (by simp)
        · intro hx
          exact absurd (by tauto : fmt = "webp" ∨ fmt = "jpg" ∨ fmt = "jpeg") hq
  · intro hmem
    fin_cases hmem <;> rfl

/-- Witness for `c9_quality_only_jpeg_webp`: PNG output is invariant to the
quality value. -/
theorem c9_quality_only_jpeg_webp_witness :
    (("png" : String) ∈ [("png" : String), "bmp", "tiff", "gif", "ico", "pdf"]) ∧
    convertOne demoRGBA demoPath none ("png") 3 = convertOne demoRGBA demoPath none ("png") 77 :=
  ⟨by decide, (c9_quality_only_jpeg_webp demoRGBA demoPath none ("png") 3 3 77).2 (by decide)⟩

theorem filter_isDone_runTrace_some (fmt : String) (files : List FileSpec) (d : ℚ) :
    (runTrace (some fmt) files d).filter isDone =
      [doneEvent (countOk files) files.length] := by
  simp only [runTrace, List.filter_append, filter_isDone_warmup,
    filter_isDone_conversionEvents, filter_isDone_paddingEvents, List.nil_append]
  rw [show (([Event.progress 100]).filter isDone) = [] from rfl, List.nil_append]
  simp [List.filter_cons, isDone_doneEvent]

theorem getLast_runTrace_some (fmt : String) (files : List FileSpec) (d : ℚ) :
    (runTrace (some fmt) files d).getLast? =
      some (doneEvent (countOk files) files.length) := by
  simp [runTrace, List.getLast?_append]

/-- C3: per-file errors are contained at the file boundary: whatever the
per-file behaviors (success, unidentified image, OS error, or any other
exception), the run emits exactly one completion event — the normal one,
determined only by the success count and the total — the progress stream is
identical to that of the same batch with every file succeeding (so a failing
file never aborts or alters the pacing of the batch), and the conversion
loop emits exactly one progress event per input file, in input order. -/
theorem c3_per_file_containment (fmt : String) (files : List FileSpec) (d : ℚ) :
    (runTrace (some fmt) files d).filter isDone =
        [doneEvent (countOk files) files.length] ∧
    progressSeq (runTrace (some fmt) files d) =
      progressSeq (runTrace (some fmt)
        (files.map (fun f => { name := f.name, behavior := FileBehavior.ok })) d) ∧
    progressSeq (conversionEvents files.length 1 files) =
      (List.range files.length).map (fun k => convPct (1 + k) files.length) := by
  refine ⟨filter_isDone_runTrace_some fmt files d, ?_,
    progressSeq_conversionEvents files.length files 1⟩
  rw [progressSeq_runTrace_some, progressSeq_runTrace_some]
  simp only [List.length_map]

/-- C4: for a completed batch over a non-empty file list, exactly one
terminal completion event is emitted, it is the last event of the run, and
it is `(True, "All conversions completed successfully.")` when every file
succeeded, `(True, "Conversion finished. Successfully converted s of t
files.")` when some but not all succeeded, and `(False, "Conversion failed
for all files. Check file integrity or permissions.")` when none did. -/
theorem c4_completion_branches (fmt : String) (files : List FileSpec) (d : ℚ)
    (h : files ≠ []) :
    (runTrace (some fmt) files d).filter isDone =
        [doneEvent (countOk files) files.length] ∧
    (runTrace (some fmt) files d).getLast? =
        some (doneEvent (countOk files) files.length) ∧
    (countOk files = files.length →
      doneEvent (countOk files) files.length =
        Event.done true ("All conversions completed successfully.")) ∧
    (0 < countOk files → countOk files < files.length →
      doneEvent (countOk files) files.length =
        Event.done true ("Conversion finished. Successfully converted " ++
          toString (countOk files) ++ " of " ++ toString files.length ++ " files.")) ∧
    (countOk files = 0 →
      doneEvent (countOk files) files.length =
        Event.done false ("Conversion failed for all files. Check file integrity or permissions.")) := by
  have hlen : files.length ≠ 0 := by
    cases files with
    | nil => exact absurd rfl h
    | cons a l => simp
  refine ⟨filter_isDone_runTrace_some fmt files d, getLast_runTrace_some fmt files d,
    ?_, ?_, ?_⟩
  · intro he
    rw [doneEvent, if_pos he]
  · intro h1 h2
    rw [doneEvent, if_neg (by omega), if_pos h1]
  · intro h0
    rw [doneEvent, if_neg (by omega), if_neg (by omega)]

/-- Witness for `c4_completion_branches` on a two-file batch with one
success and one unreadable file. -/
theorem c4_completion_branches_witness :
    demoFiles ≠ [] ∧
    (runTrace (some ("png")) demoFiles 0).filter isDone =
      [doneEvent (countOk demoFiles) demoFiles.length] :=
  ⟨by decide, (c4_completion_branches ("png") demoFiles 0 (by decide)).1⟩

/-- C2: over a non-empty file list the emitted progress percentages are
non-decreasing — through warm-up (0..70), conversion (80..99, monotone in
the file index), tail padding (pinned at 99) and the final 100 — both when
an output format is set and when it is not; and every run that reaches the
terminal completion (i.e. any run with an output format, whichever of the
three completion branches fires) emits 100 as its last progress event. -/
theorem c2_progress_monotone (fmt : String) (files : List FileSpec) (d : ℚ)
    (h : files ≠ []) :
    List.Chain' (· ≤ ·) (progressSeq (runTrace (some fmt) files d)) ∧
    List.Chain' (· ≤ ·) (progressSeq (runTrace none files d)) ∧
    (progressSeq (runTrace (some fmt) files d)).getLast? = some 100 := by
  have hlen : files.length ≠ 0 := by
    cases files with
    | nil => exact absurd rfl h
    | cons a l => simp
  refine ⟨?_, ?_, ?_⟩
  · rw [progressSeq_runTrace_some, finalConvPct_of_ne_zero hlen,
      progressSeq_paddingEvents_99, List.chain'_iff_pairwise]
    have hW : ∀ a ∈ progressSeq warmupEvents, a ≤ 70 := by
      rw [warmup_progress_eval]
      decide
    have hWp : List.Pairwise (· ≤ ·) (progressSeq warmupEvents) := by
      rw [warmup_progress_eval]
      decide
    have hC : ∀ b ∈ (List.range files.length).map
        (fun k => convPct (1 + k) files.length), 80 ≤ b ∧ b ≤ 99 := by
      intro b hb
      simp only [List.mem_map, List.mem_range] at hb
      obtain ⟨k, _, rfl⟩ := hb
      exact ⟨convPct_ge_80 _ _, convPct_le_99 _ _⟩
    have hCp : List.Pairwise (· ≤ ·)
        ((List.range files.length).map (fun k => convPct (1 + k) files.length)) :=
      List.Pairwise.map _ (fun a b hab => convPct_mono files.length (by omega))
        (List.pairwise_lt_range files.length)
    have hX : ∀ b ∈ (if 0 < (10 : ℚ) - d then List.replicate 30 (99 : ℤ) else []),
        b = 99 := by
      intro b hb
      split at hb
      · exact List.eq_of_mem_replicate hb
      · simp at hb
    have hXp : List.Pairwise (· ≤ ·)
        (if 0 < (10 : ℚ) - d then List.replicate 30 (99 : ℤ) else []) := by
      split
      · decide
      · exact List.Pairwise.nil
    refine List.pairwise_append.mpr ⟨hWp, List.pairwise_append.mpr ⟨hCp,
      List.pairwise_append.mpr ⟨hXp, List.pairwise_singleton _ _, ?_⟩, ?_⟩, ?_⟩
    · intro a ha b hb
      rw [hX a ha]
      simp only [List.mem_singleton] at hb
      omega
    · intro a ha b hb
      obtain ⟨h80, h99⟩ := hC a ha
      rcases List.mem_append.mp hb with hbX | hb1
      · rw [hX b hbX]
        omega
      · simp only [List.mem_singleton] at hb1
        omega
    · intro a ha b hb
      have ha70 := hW a ha
      rcases List.mem_append.mp hb with hbC | hbR
      · have := (hC b hbC).1
        omega
      · rcases List.mem_append.mp hbR with hbX | hb1
        · rw [hX b hbX]
          omega
        · simp only [List.mem_singleton] at hb1
          omega
  · rw [show runTrace none files d =
        warmupEvents ++ [Event.done false ("Error: No output format selected.")] from rfl,
      progressSeq_append,
      show progressSeq [Event.done false ("Error: No output format selected.")] = [] from rfl,
      List.append_nil, warmup_progress_eval, List.chain'_iff_pairwise]
    decide
  · rw [progressSeq_runTrace_some]
    simp

/-- Witness for `c2_progress_monotone` on a two-file batch. -/
theorem c2_progress_monotone_witness :
    demoFiles ≠ [] ∧
    (progressSeq (runTrace (some ("png")) demoFiles 0)).getLast? = some 100 :=
  ⟨by decide, (c2_progress_monotone ("png") demoFiles 0 (by decide)).2.2⟩

end ImageConverter
